import Mathlib

/-!
Shallow embedding of the CV-Extractor document-rendering core
(`src/smart_cv_app/app.py`): schema normalization (`ensure_schema`),
anonymization (`anonymize_data`), the document composer
(`build_cv_document`) and the filename rule of `generate_docx`.

Python strings are modelled as Lean `String`; `str.strip()` is modelled
by `pyStrip` (drop leading/trailing whitespace characters) and
`str.split()` (whitespace-run splitting) through `List.splitOnP`
followed by the listcomp's own strip-and-filter, which discards the
empty pieces `splitOnP` produces between consecutive separators, so the
composite agrees with Python's empty-free `split()`.  Python truthiness
of a string is non-emptiness; truthiness of a list is non-emptiness.
Machine-level concerns (python-docx XML, fonts as objects) are modelled
by an abstract document tree of blocks, paragraphs and runs that records
exactly the text, sizes, bold/italic flags and RGB colors the code sets.
-/

namespace SmartCV

/-- Model of Python `str.strip()`: remove leading and trailing whitespace. -/
def pyStrip (s : String) : String :=
  String.mk (((s.toList.dropWhile Char.isWhitespace).reverse.dropWhile Char.isWhitespace).reverse)

/-- Model of the composite `[p.strip() for p in name.split() if p.strip()]`
(app.py line 225): split on whitespace, strip each piece, keep the truthy ones. -/
def nameParts (name : String) : List String :=
  ((name.toList.splitOnP Char.isWhitespace).map (fun cs => pyStrip (String.mk cs))).filter
    (fun p => p != "")

/-- Constants from app.py lines 42-54.  `DEFAULT_PHOTO` is an absolute path
computed at runtime from `__file__`; only its identity matters here.
`COMPANY_PHONE` comes from the environment with this default. -/
def DEFAULT_PHOTO : String := "static/uploads/ntrace_logo.jpeg"

def COMPANY_PHONE : String := "+33 6 62 54 45 33"

def COMPANY_EMAIL : String := "servicecommercial@ntrace-consulting.com"

/-- Style constants (app.py lines 242-245), RGB values as numbers. -/
def CLR_BLUE : Nat := 0x1F6FB2

def CLR_GREY : Nat := 0x646464

def CLR_BLACK : Nat := 0x000000

/-- Typed form of the `personal_info` dict once every key is present with a
string value (the shape the composer and anonymizer consume). -/
structure PersonalInfo where
  name : String
  title : String
  email : String
  phone : String
  location : String
  summary : String
  photo_path : String
deriving DecidableEq

structure ExperienceEntry where
  period : String
  role : String
  company : String
  details : List String
deriving DecidableEq

structure EducationEntry where
  period : String
  degree : String
  school : String
  details : List String
deriving DecidableEq

/-- The canonical CV record consumed by `anonymize_data` and
`build_cv_document`. -/
structure CVRecord where
  personal_info : PersonalInfo
  education : List EducationEntry
  experience : List ExperienceEntry
  skills : List String
  language : String
deriving DecidableEq

/-! Partial records, for `ensure_schema`.  A Python dict key can be absent,
present with value `None`, or present with a value; each field is therefore
an `Option (Option _)`: `none` = key absent, `some none` = key null,
`some (some v)` = key present with value `v`.  A `None` top-level input is
turned into `{}` by `data = data or {}` (app.py line 156), i.e. the
all-`none` partial record, so the input type is just `PRecord`. -/

structure PPersonalInfo where
  name : Option (Option String)
  title : Option (Option String)
  email : Option (Option String)
  phone : Option (Option String)
  location : Option (Option String)
  summary : Option (Option String)
  photo_path : Option (Option String)
deriving DecidableEq

structure PRecord where
  personal_info : Option (Option PPersonalInfo)
  education : Option (Option (List EducationEntry))
  skills : Option (Option (List String))
  experience : Option (Option (List ExperienceEntry))
  language : Option (Option String)
deriving DecidableEq

/-- The empty dict `{}`. -/
def emptyPPI : PPersonalInfo :=
  { name := none, title := none, email := none, phone := none
  , location := none, summary := none, photo_path := none }

/-- The all-missing partial record (Python `{}` / `None` input). -/
def emptyPRecord : PRecord :=
  { personal_info := none, education := none, skills := none
  , experience := none, language := none }

/-- Model of `dict.setdefault(key, d)`: an absent key is set to `d`; a key
present with any value — including null — keeps its value. -/
def setdefault (x : Option (Option α)) (d : α) : Option (Option α) :=
  match x with
  | none => some (some d)
  | some v => some v

/-- Model of `pi = data.get('personal_info', {})` followed by the
`pi.setdefault` loop's precondition: an absent key yields the fresh dict
`{}`; a key present with `None` makes `pi.setdefault(...)` raise
`AttributeError` (modelled as `none`). -/
def getPI (x : PRecord) : Option PPersonalInfo :=
  match x.personal_info with
  | none => some emptyPPI
  | some none => none
  | some (some p) => some p

/-- Embedding of `ensure_schema` (app.py lines 155-168).  Every key of
`personal_info` and every top-level key is `setdefault`-ed; `photo_path`
defaults to `DEFAULT_PHOTO`, the other personal-info strings to `''`,
the three lists to `[]` and `language` to `'fr'`.  The `Option` result
models the `AttributeError` raised when `personal_info` is null. -/
def ensure_schema (data : PRecord) : Option PRecord :=
  (getPI data).map (fun pi =>
    let pi2 : PPersonalInfo :=
      { name := setdefault pi.name ""
      , title := setdefault pi.title ""
      , email := setdefault pi.email ""
      , phone := setdefault pi.phone ""
      , location := setdefault pi.location ""
      , summary := setdefault pi.summary ""
      , photo_path := setdefault pi.photo_path DEFAULT_PHOTO }
    { personal_info := some (some pi2)
    , education := setdefault data.education []
    , skills := setdefault data.skills []
    , experience := setdefault data.experience []
    , language := setdefault data.language "fr" })

/-- First character of a part, uppercased, as a one-character string —
`parts[i][0].upper()` (app.py lines 227-229); the parts fed to it are
non-empty strings. -/
def upperInitial (s : String) : String := s.front.toUpper.toString

/-- Name-to-initials rule of `anonymize_data` (app.py lines 223-229): on a
name whose strip is truthy, split into parts; two or more parts give
first-initial dot space last-initial dot, exactly one part gives the
single initial followed by a dot, and otherwise the stored name is left
as it was. -/
def anonymizeName (originalName : String) : String :=
  let name := pyStrip originalName
  if name ≠ "" then
    match nameParts name with
    | p :: q :: rest =>
        upperInitial p ++ ". " ++ upperInitial ((q :: rest).getLast (List.cons_ne_nil q rest)) ++ "."
    | [p] => upperInitial p ++ "."
    | [] => originalName
  else originalName

/-- Embedding of `anonymize_data` (app.py lines 218-234).  The Python
function deep-copies its input and mutates only the copy; value semantics
make that copy implicit here.  The name becomes initials, the phone and
email become the company constants, and nothing else is touched. -/
def anonymize_data (data : CVRecord) : CVRecord :=
  { data with personal_info :=
      { data.personal_info with
        name := anonymizeName data.personal_info.name
      , phone := COMPANY_PHONE
      , email := COMPANY_EMAIL } }

/-! Filtering predicates.  `s and s.strip()` is truthy iff `s` is non-empty
and its strip is non-empty. -/

/-- Skill filter `s and s.strip()` (app.py lines 420 and 747). -/
def keepSkill (s : String) : Bool := s != "" && pyStrip s != ""

/-- Detail filter `d and d.strip()` (app.py lines 450, 487, 757, 759). -/
def keepDetail (d : String) : Bool := d != "" && pyStrip d != ""

/-- Experience filter: role or company non-blank (app.py lines 434-437 and 748-751). -/
def keepExp (e : ExperienceEntry) : Bool :=
  (e.role != "" && pyStrip e.role != "") || (e.company != "" && pyStrip e.company != "")

/-- Education filter: degree or school non-blank (app.py lines 471-474 and 752-755). -/
def keepEdu (e : EducationEntry) : Bool :=
  (e.degree != "" && pyStrip e.degree != "") || (e.school != "" && pyStrip e.school != "")

/-- Filtered experience list, `experiences` of app.py lines 434-437. -/
def filteredExp (r : CVRecord) : List ExperienceEntry := r.experience.filter keepExp

/-- Filtered education list, `education` of app.py lines 471-474. -/
def filteredEdu (r : CVRecord) : List EducationEntry := r.education.filter keepEdu

/-- Filtered skills list, `skills` of app.py line 420. -/
def filteredSkills (r : CVRecord) : List String := r.skills.filter keepSkill

/-- Detail-filtering step of app.py lines 756-757: replace an experience
entry's details by their non-blank subsequence. -/
def filterDetailsExp (e : ExperienceEntry) : ExperienceEntry :=
  { e with details := e.details.filter keepDetail }

/-- Detail-filtering step of app.py lines 758-759 for education entries. -/
def filterDetailsEdu (e : EducationEntry) : EducationEntry :=
  { e with details := e.details.filter keepDetail }

/-- The pre-render filtering pass of `generate_docx` (app.py lines 747-759):
drop blank skills, entries lacking both title fields, and blank details. -/
def generate_docx_filter (r : CVRecord) : CVRecord :=
  { r with
    skills := r.skills.filter keepSkill
  , experience := (r.experience.filter keepExp).map filterDetailsExp
  , education := (r.education.filter keepEdu).map filterDetailsEdu }

/-! Abstract document tree. -/

/-- One run inside a paragraph: a styled text run produced by `_add_run`
(text, point size, bold, italic, RGB color), a picture run produced by
`add_run().add_picture(path)`, or the bare empty run left behind when
`add_picture` raises after `add_run()` succeeded. -/
inductive DocRun where
  | txt (text : String) (size : Nat) (bold : Bool) (italic : Bool) (color : Nat)
  | pic (path : String)
  | blank
deriving DecidableEq

/-- A paragraph is its list of runs (spacing and indents carry no claim
content and are omitted). -/
abbrev Para := List DocRun

/-- A table cell is its list of paragraphs; python-docx cells start with one
empty paragraph, to which runs are added. -/
abbrev Cell := List Para

/-- A document block: a body paragraph, a section heading (`_add_section_heading`:
a paragraph distinguished by its colored bottom border), or a borderless
two-column table given as its list of (left cell, right cell) rows. -/
inductive Block where
  | para (runs : Para)
  | heading (runs : Para)
  | table (rows : List (Cell × Cell))
deriving DecidableEq

/-- Section heading block built by `_add_section_heading` (app.py lines
336-349): one run, size 12, bold, accent blue, bottom border. -/
def sectionHeading (text : String) : Block :=
  Block.heading [DocRun.txt text 12 true false CLR_BLUE]

/-- Summary gate `_is_real_summary` (app.py lines 352-355). -/
def _is_real_summary (text : String) : Bool :=
  if text = "" ∨ pyStrip text = "" then false
  else decide (40 ≤ (pyStrip text).length)

/-- External effects consulted by the composer: `os.path.exists`, whether
`add_picture` succeeds on an existing path, and the LLM skill-grouping
oracle (`None` models any exception or non-dict reply inside `group_skills`). -/
structure RenderEnv where
  pathExists : String → Bool
  pictureOk : String → Bool
  llmGroups : List String → String → Option (List (String × String))

/-- Embedding of `group_skills` (app.py lines 126-152): empty input gives
`{}`; a successful LLM call returning a non-empty dict is used as is;
otherwise a single fallback category labelled by language holds the
comma-joined skills. -/
def group_skills (env : RenderEnv) (skills : List String) (lang : String) :
    List (String × String) :=
  if skills = [] then []
  else
    let fallbackLabel := if lang ≠ "en" then "Compétences" else "Skills"
    let fallback := [(fallbackLabel, String.intercalate ", " skills)]
    match env.llmGroups skills lang with
    | some grouped => if grouped ≠ [] then grouped else fallback
    | none => fallback

/-- Locale-dependent skills heading (app.py line 422). -/
def skillsTitle (lang : String) : String :=
  if lang ≠ "en" then "COMPETENCES PROFESSIONNELLES" else "PROFESSIONAL SKILLS"

/-- Locale-dependent experience heading (app.py line 439). -/
def expTitle (lang : String) : String :=
  if lang ≠ "en" then "EXPÉRIENCES PROFESSIONNELLES" else "PROFESSIONAL EXPERIENCE"

/-- Locale-dependent education heading (app.py line 476). -/
def eduTitle (lang : String) : String :=
  if lang ≠ "en" then "FORMATIONS ET DIPLÔMES" else "EDUCATION"

/-- One experience table row (app.py lines 446-468): left cell holds the
period paragraph (bold, accent blue) above the company paragraph when the
company is truthy; right cell holds the bold role paragraph followed by one
bulleted paragraph per non-blank detail, in order. -/
def expRow (e : ExperienceEntry) : Cell × Cell :=
  ( [DocRun.txt e.period 11 true false CLR_BLUE]
      :: (if e.company ≠ "" then [[DocRun.txt e.company 11 false false CLR_BLACK]] else [])
  , [DocRun.txt e.role 11 true false CLR_BLACK]
      :: (e.details.filter keepDetail).map (fun d =>
          [DocRun.txt "• " 10 false false CLR_BLACK,
           DocRun.txt d 10 false false CLR_BLACK]) )

/-- One education table row (app.py lines 483-505), same shape with
degree/school in place of role/company. -/
def eduRow (e : EducationEntry) : Cell × Cell :=
  ( [DocRun.txt e.period 11 true false CLR_BLUE]
      :: (if e.school ≠ "" then [[DocRun.txt e.school 11 false false CLR_BLACK]] else [])
  , [DocRun.txt e.degree 11 true false CLR_BLACK]
      :: (e.details.filter keepDetail).map (fun d =>
          [DocRun.txt "• " 10 false false CLR_BLACK,
           DocRun.txt d 10 false false CLR_BLACK]) )

/-- Header table (app.py lines 379-410): left cell carries the best-effort
logo (inserted only when the path is truthy and exists; a failing
`add_picture` leaves the bare run and is swallowed); right cell carries the
name, the uppercased title and the contact line joining the truthy phone
and email parts. -/
def headerBlock (env : RenderEnv) (pi : PersonalInfo) : Block :=
  let logo_path := pi.photo_path
  let logoRuns : Para :=
    if logo_path ≠ "" ∧ env.pathExists logo_path then
      if env.pictureOk logo_path then [DocRun.pic logo_path] else [DocRun.blank]
    else []
  let contact_parts : List String :=
    (if pi.phone ≠ "" then ["Tél : " ++ pi.phone] else []) ++
    (if pi.email ≠ "" then ["Email : " ++ pi.email] else [])
  Block.table
    [( [logoRuns]
     , [ [DocRun.txt pi.name 18 true false CLR_BLUE]
       , [DocRun.txt pi.title.toUpper 12 true false CLR_BLUE]
       , [DocRun.txt (String.intercalate "\n" contact_parts) 11 false false CLR_BLACK] ] )]

/-- Summary block (app.py lines 413-417): a single italic grey paragraph,
emitted only when `_is_real_summary` passes. -/
def summaryBlocks (pi : PersonalInfo) : List Block :=
  if _is_real_summary pi.summary then
    [Block.para [DocRun.txt pi.summary 11 false true CLR_GREY]]
  else []

/-- Skills section (app.py lines 420-431): heading plus one paragraph per
grouped category (bold label, then the skill string), only when the
filtered skill list is truthy. -/
def skillsBlocks (env : RenderEnv) (data : CVRecord) (lang : String) : List Block :=
  if filteredSkills data = [] then []
  else
    sectionHeading (skillsTitle lang) ::
      (group_skills env (filteredSkills data) lang).map (fun cs =>
        Block.para [ DocRun.txt ("• " ++ cs.1 ++ " : ") 11 true false CLR_BLACK
                   , DocRun.txt cs.2 11 false false CLR_BLACK ])

/-- Experience section (app.py lines 434-468): heading plus a two-column
table with exactly one row per filtered entry, only when the filtered list
is truthy. -/
def expBlocks (data : CVRecord) (lang : String) : List Block :=
  if filteredExp data = [] then []
  else [sectionHeading (expTitle lang), Block.table ((filteredExp data).map expRow)]

/-- Education section (app.py lines 471-505), same structure as experience. -/
def eduBlocks (data : CVRecord) (lang : String) : List Block :=
  if filteredEdu data = [] then []
  else [sectionHeading (eduTitle lang), Block.table ((filteredEdu data).map eduRow)]

/-- Embedding of `build_cv_document` (app.py lines 366-507): header, then
conditionally summary, skills, experience and education, in that fixed
order. -/
def build_cv_document (env : RenderEnv) (data : CVRecord) (lang : String) : List Block :=
  headerBlock env data.personal_info
    :: (summaryBlocks data.personal_info ++ skillsBlocks env data lang
        ++ expBlocks data lang ++ eduBlocks data lang)

/-- Replace the logo cell's content by the empty paragraph it has when no
image was inserted; used to state that the rest of the document is
independent of image availability. -/
def stripLogo (blocks : List Block) : List Block :=
  match blocks with
  | Block.table ((_, info) :: rest) :: bs =>
      Block.table (([([] : Para)], info) :: rest) :: bs
  | bs => bs

/-- Model of Python `.replace(' ', '_')` for the single-character pattern:
every space becomes an underscore. -/
def underscoreSpaces (s : String) : String :=
  String.mk (s.toList.map (fun c => if c = ' ' then '_' else c))

/-- The `clean_name` expression of `generate_docx` (app.py line 767): keep
alphanumerics, spaces and underscores, strip, then map spaces to
underscores. -/
def clean_name_of (anon_name : String) : String :=
  underscoreSpaces
    (pyStrip (String.mk (anon_name.toList.filter
      (fun c => c.isAlphanum || c == ' ' || c == '_'))))

/-- The download-filename rule of `generate_docx` (app.py line 768). -/
def derive_filename (anon_name : String) : String :=
  if clean_name_of anon_name ≠ "" then "CV_" ++ clean_name_of anon_name ++ ".docx"
  else "generated_cv.docx"

/-! Concrete records and environment used by witnesses. -/

/-- Render environment in which no path exists, no picture loads and the
LLM oracle fails. -/
def env0 : RenderEnv :=
  { pathExists := fun _ => false
  , pictureOk := fun _ => false
  , llmGroups := fun _ _ => none }

/-- Personal-info value with all fields blank. -/
def blankPI : PersonalInfo :=
  { name := "", title := "", email := "", phone := "", location := ""
  , summary := "", photo_path := "" }

/-- Record whose name is the spec's two-part example. -/
def ousmaneRecord : CVRecord :=
  { personal_info := { blankPI with name := "Ousmane SY" }
  , education := [], experience := [], skills := [], language := "fr" }

/-- Record whose name is the spec's one-part example. -/
def adaRecord : CVRecord :=
  { personal_info := { blankPI with name := "Ada" }
  , education := [], experience := [], skills := [], language := "fr" }

/-- Record with an empty name. -/
def emptyNameRecord : CVRecord :=
  { personal_info := blankPI
  , education := [], experience := [], skills := [], language := "fr" }

/-- Record with one renderable experience entry. -/
def expRecord : CVRecord :=
  { personal_info := blankPI
  , education := []
  , experience := [{ period := "2020", role := "Dev", company := "ACME"
                   , details := ["a", " ", "b"] }]
  , skills := [], language := "fr" }

/-- Record with one non-blank skill. -/
def skillRecord : CVRecord :=
  { personal_info := blankPI
  , education := [], experience := []
  , skills := ["Python"], language := "fr" }

/-! Observers over the document tree, used to state the claims. -/

/-- Decide whether a block is a section heading carrying the text `t`. -/
def isHeadingWith (t : String) (b : Block) : Bool :=
  match b with
  | Block.heading runs => runs.any (fun rn =>
      match rn with
      | DocRun.txt s _ _ _ _ => s == t
      | _ => false)
  | _ => false

/-- Decide whether a block is a table. -/
def isTable (b : Block) : Bool :=
  match b with
  | Block.table _ => true
  | _ => false

/-- The exact block shape the composer emits for a rendered summary `s`:
one italic grey size-11 paragraph holding `s`. -/
def summaryBlockOf (s : String) : Block :=
  Block.para [DocRun.txt s 11 false true CLR_GREY]

/-- Partial input whose `personal_info` key is present but null. -/
def nullPIInput : PRecord := { emptyPRecord with personal_info := some none }

/-- Partial input whose `education` key is present but null. -/
def nullEduInput : PRecord := { emptyPRecord with education := some none }

/-- The fully-defaulted personal-info dict `ensure_schema` produces from a
missing `personal_info`. -/
def defaultPPI : PPersonalInfo :=
  { name := some (some ""), title := some (some ""), email := some (some "")
  , phone := some (some ""), location := some (some ""), summary := some (some "")
  , photo_path := some (some DEFAULT_PHOTO) }

end SmartCV

namespace SmartCV

/-! Helper lemmas. -/

theorem setdefault_setdefault (x : Option (Option α)) (d d' : α) :
    setdefault (setdefault x d) d' = setdefault x d := by
  cases x <;> rfl

theorem setdefault_isSome (x : Option (Option α)) (d : α) :
    (setdefault x d).isSome = true := by
  cases x <;> rfl

theorem filter_idem (p : α → Bool) (l : List α) :
    (l.filter p).filter p = l.filter p := by
  induction l with
  | nil => rfl
  | cons a t ih => cases hp : p a <;> simp [List.filter_cons, hp, ih]

/-- C7: normalization is idempotent — running `ensure_schema` on its own
output returns that output unchanged, and the error case propagates, so
`normalize(normalize(x)) == normalize(x)` for every partial input. -/
theorem ensure_schema_idempotent (x : PRecord) :
    (ensure_schema x).bind ensure_schema = ensure_schema x := by
  obtain ⟨pio, edu, sk, ex, la⟩ := x
  rcases pio with _ | pi0
  · simp [ensure_schema, getPI, setdefault_setdefault]
  · rcases pi0 with _ | p
    · rfl
    · simp [ensure_schema, getPI, setdefault_setdefault]

/-- C6 counterexample: the claim promises that null-valued fields are also
defaulted with no error raised, but `ensure_schema` crashes on a null
`personal_info` (modelled by `none`) and leaves a null `education` null
instead of replacing it with the empty list. -/
theorem ensure_schema_null_counterexample :
    ensure_schema nullPIInput = none
    ∧ (ensure_schema nullEduInput).map PRecord.education = some (some none)
    ∧ some (some none) ≠ some (some (some ([] : List EducationEntry))) :=
  ⟨rfl, rfl, by decide⟩

/-- C6 (amended): for every partial input whose `personal_info` key is not
null, `ensure_schema` raises no error and returns a record with all five
top-level keys present and all seven personal-info sub-keys present; keys
that were absent receive the specified defaults (empty strings, the bundled
placeholder photo path, empty lists, `fr`), while keys present with a null
value are left null. -/
theorem ensure_schema_defaults (x : PRecord) (h : x.personal_info ≠ some none) :
    ∃ r, ensure_schema x = some r
      ∧ r.personal_info.isSome = true ∧ r.education.isSome = true
      ∧ r.skills.isSome = true ∧ r.experience.isSome = true ∧ r.language.isSome = true
      ∧ (x.education = none → r.education = some (some []))
      ∧ (x.education = some none → r.education = some none)
      ∧ (x.skills = none → r.skills = some (some []))
      ∧ (x.skills = some none → r.skills = some none)
      ∧ (x.experience = none → r.experience = some (some []))
      ∧ (x.experience = some none → r.experience = some none)
      ∧ (x.language = none → r.language = some (some "fr"))
      ∧ (x.language = some none → r.language = some none)
      ∧ ∃ pi, r.personal_info = some (some pi)
          ∧ pi.name.isSome = true ∧ pi.title.isSome = true ∧ pi.email.isSome = true
          ∧ pi.phone.isSome = true ∧ pi.location.isSome = true
          ∧ pi.summary.isSome = true ∧ pi.photo_path.isSome = true
          ∧ (x.personal_info = none → pi = defaultPPI)
          ∧ (∀ p, x.personal_info = some (some p) →
              (p.name = none → pi.name = some (some ""))
              ∧ (p.name = some none → pi.name = some none)
              ∧ (p.title = none → pi.title = some (some ""))
              ∧ (p.title = some none → pi.title = some none)
              ∧ (p.email = none → pi.email = some (some ""))
              ∧ (p.email = some none → pi.email = some none)
              ∧ (p.phone = none → pi.phone = some (some ""))
              ∧ (p.phone = some none → pi.phone = some none)
              ∧ (p.location = none → pi.location = some (some ""))
              ∧ (p.location = some none → pi.location = some none)
              ∧ (p.summary = none → pi.summary = some (some ""))
              ∧ (p.summary = some none → pi.summary = some none)
              ∧ (p.photo_path = none → pi.photo_path = some (some DEFAULT_PHOTO))
              ∧ (p.photo_path = some none → pi.photo_path = some none)) := by
  obtain ⟨pio, edu, sk, ex, la⟩ := x
  rcases pio with _ | pi0
  · refine ⟨_, rfl, rfl, setdefault_isSome _ _, setdefault_isSome _ _,
      setdefault_isSome _ _, setdefault_isSome _ _, ?_, ?_, ?_, ?_, ?_, ?_, ?_, ?_,
      ⟨_, rfl, rfl, rfl, rfl, rfl, rfl, rfl, rfl, fun _ => rfl, ?_⟩⟩ <;>
      first
        | (intro hh; injection hh)
        | (intro hh; simp only at hh; subst hh; rfl)
        | (intro p hp; injection hp)
  · rcases pi0 with _ | p
    · exact absurd rfl h
    · refine ⟨_, rfl, rfl, setdefault_isSome _ _, setdefault_isSome _ _,
        setdefault_isSome _ _, setdefault_isSome _ _, ?_, ?_, ?_, ?_, ?_, ?_, ?_, ?_,
        ⟨_, rfl, setdefault_isSome _ _, setdefault_isSome _ _, setdefault_isSome _ _,
          setdefault_isSome _ _, setdefault_isSome _ _, setdefault_isSome _ _,
          setdefault_isSome _ _, ?_, ?_⟩⟩
      all_goals
        first
          | (intro hh; injection hh)
          | (intro hh; simp only at hh; subst hh; rfl)
          | (intro q hq;
             obtain rfl : p = q := by injection hq with hq1; injection hq1
             exact ⟨fun hh => by rw [hh]; rfl, fun hh => by rw [hh]; rfl,
                    fun hh => by rw [hh]; rfl, fun hh => by rw [hh]; rfl,
                    fun hh => by rw [hh]; rfl, fun hh => by rw [hh]; rfl,
                    fun hh => by rw [hh]; rfl, fun hh => by rw [hh]; rfl,
                    fun hh => by rw [hh]; rfl, fun hh => by rw [hh]; rfl,
                    fun hh => by rw [hh]; rfl, fun hh => by rw [hh]; rfl,
                    fun hh => by rw [hh]; rfl, fun hh => by rw [hh]; rfl⟩)

/-- C6 (amended) witness: the all-missing input normalizes successfully
with every default filled in. -/
theorem ensure_schema_defaults_witness :
    ∃ r, ensure_schema emptyPRecord = some r
      ∧ r.personal_info.isSome = true ∧ r.education.isSome = true
      ∧ r.skills.isSome = true ∧ r.experience.isSome = true ∧ r.language.isSome = true
      ∧ (emptyPRecord.education = none → r.education = some (some []))
      ∧ (emptyPRecord.education = some none → r.education = some none)
      ∧ (emptyPRecord.skills = none → r.skills = some (some []))
      ∧ (emptyPRecord.skills = some none → r.skills = some none)
      ∧ (emptyPRecord.experience = none → r.experience = some (some []))
      ∧ (emptyPRecord.experience = some none → r.experience = some none)
      ∧ (emptyPRecord.language = none → r.language = some (some "fr"))
      ∧ (emptyPRecord.language = some none → r.language = some none)
      ∧ ∃ pi, r.personal_info = some (some pi)
          ∧ pi.name.isSome = true ∧ pi.title.isSome = true ∧ pi.email.isSome = true
          ∧ pi.phone.isSome = true ∧ pi.location.isSome = true
          ∧ pi.summary.isSome = true ∧ pi.photo_path.isSome = true
          ∧ (emptyPRecord.personal_info = none → pi = defaultPPI)
          ∧ (∀ p, emptyPRecord.personal_info = some (some p) →
              (p.name = none → pi.name = some (some ""))
              ∧ (p.name = some none → pi.name = some none)
              ∧ (p.title = none → pi.title = some (some ""))
              ∧ (p.title = some none → pi.title = some none)
              ∧ (p.email = none → pi.email = some (some ""))
              ∧ (p.email = some none → pi.email = some none)
              ∧ (p.phone = none → pi.phone = some (some ""))
              ∧ (p.phone = some none → pi.phone = some none)
              ∧ (p.location = none → pi.location = some (some ""))
              ∧ (p.location = some none → pi.location = some none)
              ∧ (p.summary = none → pi.summary = some (some ""))
              ∧ (p.summary = some none → pi.summary = some none)
              ∧ (p.photo_path = none → pi.photo_path = some (some DEFAULT_PHOTO))
              ∧ (p.photo_path = some none → pi.photo_path = some none)) :=
  ensure_schema_defaults emptyPRecord (by decide)

/-- C5: anonymization is non-destructive — in this value-semantics embedding
the input record is untouched by construction (the Python code mutates only
its `copy.deepcopy`), and every field other than name, phone and email is
carried over identical to the input. -/
theorem anonymize_data_preserves (r : CVRecord) :
    (anonymize_data r).education = r.education
    ∧ (anonymize_data r).experience = r.experience
    ∧ (anonymize_data r).skills = r.skills
    ∧ (anonymize_data r).language = r.language
    ∧ (anonymize_data r).personal_info.title = r.personal_info.title
    ∧ (anonymize_data r).personal_info.location = r.personal_info.location
    ∧ (anonymize_data r).personal_info.summary = r.personal_info.summary
    ∧ (anonymize_data r).personal_info.photo_path = r.personal_info.photo_path :=
  ⟨rfl, rfl, rfl, rfl, rfl, rfl, rfl, rfl⟩

/-- C4: the anonymized name is built by whitespace-splitting the stripped
name into non-empty parts: two or more parts give uppercased first initial,
period, space, uppercased last initial, period; exactly one part gives the
uppercased initial and a period with no leading space; an empty name is
left unchanged. -/
theorem anonymize_name_rule (r : CVRecord) :
    (∀ p q rest, nameParts (pyStrip r.personal_info.name) = p :: q :: rest →
        (anonymize_data r).personal_info.name
          = upperInitial p ++ ". "
              ++ upperInitial ((q :: rest).getLast (List.cons_ne_nil q rest)) ++ ".")
    ∧ (∀ p, nameParts (pyStrip r.personal_info.name) = [p] →
        (anonymize_data r).personal_info.name = upperInitial p ++ ".")
    ∧ (r.personal_info.name = "" → (anonymize_data r).personal_info.name = "") := by
  have hname : (anonymize_data r).personal_info.name
      = anonymizeName r.personal_info.name := rfl
  refine ⟨?_, ?_, ?_⟩
  · intro p q rest hparts
    have hne : pyStrip r.personal_info.name ≠ "" := by
      intro he
      rw [he] at hparts
      exact List.noConfusion ((rfl : nameParts "" = []) ▸ hparts)
    rw [hname]
    unfold anonymizeName
    rw [if_pos hne, hparts]
  · intro p hparts
    have hne : pyStrip r.personal_info.name ≠ "" := by
      intro he
      rw [he] at hparts
      exact List.noConfusion ((rfl : nameParts "" = []) ▸ hparts)
    rw [hname]
    unfold anonymizeName
    rw [if_pos hne, hparts]
  · intro he
    rw [hname, he]
    rfl

/-- C4 witness: the spec's three examples evaluated through the rule. -/
theorem anonymize_name_rule_witness :
    (anonymize_data ousmaneRecord).personal_info.name = "O. S."
    ∧ (anonymize_data adaRecord).personal_info.name = "A."
    ∧ (anonymize_data emptyNameRecord).personal_info.name = "" := by
  refine ⟨?_, ?_, ?_⟩
  · rw [(anonymize_name_rule ousmaneRecord).1 "Ousmane" "SY" [] (by decide)]
    decide
  · rw [(anonymize_name_rule adaRecord).2.1 "Ada" (by decide)]
    decide
  · exact (anonymize_name_rule emptyNameRecord).2.2 rfl

/-- C9: the download filename strips the anonymized name to alphanumerics,
spaces and underscores, strips whitespace, turns spaces into underscores
and prefixes `CV_` with extension `.docx`; an empty cleaned name falls back
to the fixed generic filename; in particular `"O. S."` yields
`CV_O_S.docx`. -/
theorem derive_filename_rule (anon_name : String) :
    (clean_name_of anon_name = "" → derive_filename anon_name = "generated_cv.docx")
    ∧ (clean_name_of anon_name ≠ "" →
        derive_filename anon_name = "CV_" ++ clean_name_of anon_name ++ ".docx")
    ∧ derive_filename "O. S." = "CV_O_S.docx" := by
  refine ⟨?_, ?_, by decide⟩
  · intro h
    unfold derive_filename
    rw [if_neg (fun hn => hn h)]
  · intro h
    unfold derive_filename
    rw [if_pos h]

/-- C9 witness: both branches of the rule at concrete names. -/
theorem derive_filename_rule_witness :
    derive_filename "" = "generated_cv.docx"
    ∧ derive_filename "O. S." = "CV_O_S.docx"
    ∧ derive_filename "Ada" = "CV_Ada.docx" := by
  refine ⟨(derive_filename_rule "").1 (by decide), (derive_filename_rule "O. S.").2.2, ?_⟩
  rw [(derive_filename_rule "Ada").2.1 (by decide)]
  decide

end SmartCV

namespace SmartCV

/-! Heading-text case analysis and distinctness of the section titles. -/

theorem skillsTitle_cases (lang : String) :
    skillsTitle lang = "COMPETENCES PROFESSIONNELLES"
    ∨ skillsTitle lang = "PROFESSIONAL SKILLS" := by
  unfold skillsTitle
  split
  · exact Or.inl rfl
  · exact Or.inr rfl

theorem expTitle_cases (lang : String) :
    expTitle lang = "EXPÉRIENCES PROFESSIONNELLES"
    ∨ expTitle lang = "PROFESSIONAL EXPERIENCE" := by
  unfold expTitle
  split
  · exact Or.inl rfl
  · exact Or.inr rfl

theorem eduTitle_cases (lang : String) :
    eduTitle lang = "FORMATIONS ET DIPLÔMES" ∨ eduTitle lang = "EDUCATION" := by
  unfold eduTitle
  split
  · exact Or.inl rfl
  · exact Or.inr rfl

theorem expTitle_ne_skillsTitle (lang : String) : expTitle lang ≠ skillsTitle lang := by
  rcases expTitle_cases lang with h1 | h1 <;> rcases skillsTitle_cases lang with h2 | h2 <;>
    rw [h1, h2] <;> decide

theorem expTitle_ne_eduTitle (lang : String) : expTitle lang ≠ eduTitle lang := by
  rcases expTitle_cases lang with h1 | h1 <;> rcases eduTitle_cases lang with h2 | h2 <;>
    rw [h1, h2] <;> decide

theorem skillsTitle_ne_expTitle (lang : String) : skillsTitle lang ≠ expTitle lang :=
  fun h => expTitle_ne_skillsTitle lang h.symm

theorem skillsTitle_ne_eduTitle (lang : String) : skillsTitle lang ≠ eduTitle lang := by
  rcases skillsTitle_cases lang with h1 | h1 <;> rcases eduTitle_cases lang with h2 | h2 <;>
    rw [h1, h2] <;> decide

theorem lit_fr_ne_expTitle (lang : String) :
    ("COMPETENCES PROFESSIONNELLES" : String) ≠ expTitle lang := by
  rcases expTitle_cases lang with h | h <;> rw [h] <;> decide

theorem lit_en_ne_expTitle (lang : String) :
    ("PROFESSIONAL SKILLS" : String) ≠ expTitle lang := by
  rcases expTitle_cases lang with h | h <;> rw [h] <;> decide

theorem lit_fr_ne_eduTitle (lang : String) :
    ("COMPETENCES PROFESSIONNELLES" : String) ≠ eduTitle lang := by
  rcases eduTitle_cases lang with h | h <;> rw [h] <;> decide

theorem lit_en_ne_eduTitle (lang : String) :
    ("PROFESSIONAL SKILLS" : String) ≠ eduTitle lang := by
  rcases eduTitle_cases lang with h | h <;> rw [h] <;> decide

/-! Counting lemmas for the block observers on each document section. -/

theorem isHeadingWith_sectionHeading (t u : String) :
    isHeadingWith t (sectionHeading u) = (u == t) := by
  simp [isHeadingWith, sectionHeading]

theorem isHeadingWith_para (t : String) (p : Para) :
    isHeadingWith t (Block.para p) = false := rfl

theorem isHeadingWith_table (t : String) (rows : List (Cell × Cell)) :
    isHeadingWith t (Block.table rows) = false := rfl

theorem isTable_sectionHeading (u : String) : isTable (sectionHeading u) = false := rfl

theorem isTable_para (p : Para) : isTable (Block.para p) = false := rfl

theorem isTable_table (rows : List (Cell × Cell)) : isTable (Block.table rows) = true := rfl

theorem isHeadingWith_headerBlock (t : String) (env : RenderEnv) (pi : PersonalInfo) :
    isHeadingWith t (headerBlock env pi) = false := rfl

theorem isTable_headerBlock (env : RenderEnv) (pi : PersonalInfo) :
    isTable (headerBlock env pi) = true := rfl

theorem countP_summaryBlocks_heading (pi : PersonalInfo) (t : String) :
    (summaryBlocks pi).countP (isHeadingWith t) = 0 := by
  unfold summaryBlocks
  split <;> rfl

theorem countP_summaryBlocks_table (pi : PersonalInfo) :
    (summaryBlocks pi).countP isTable = 0 := by
  unfold summaryBlocks
  split <;> rfl

theorem countP_summaryBlocks_summary (pi : PersonalInfo) :
    (summaryBlocks pi).countP (fun b => decide (b = summaryBlockOf pi.summary))
      = if _is_real_summary pi.summary then 1 else 0 := by
  unfold summaryBlocks
  split
  · simp [summaryBlockOf, List.countP_cons]
  · rfl

theorem countP_header_summary (env : RenderEnv) (pi : PersonalInfo) (s : String) :
    decide (headerBlock env pi = summaryBlockOf s) = false := by
  simp [headerBlock, summaryBlockOf]

theorem skillsBlocks_of_empty (env : RenderEnv) (r : CVRecord) (lang : String)
    (h : filteredSkills r = []) : skillsBlocks env r lang = [] := by
  unfold skillsBlocks
  rw [if_pos h]

theorem expBlocks_of_empty (r : CVRecord) (lang : String)
    (h : filteredExp r = []) : expBlocks r lang = [] := by
  unfold expBlocks
  rw [if_pos h]

theorem eduBlocks_of_empty (r : CVRecord) (lang : String)
    (h : filteredEdu r = []) : eduBlocks r lang = [] := by
  unfold eduBlocks
  rw [if_pos h]

theorem countP_skillsBlocks_heading_ne (env : RenderEnv) (r : CVRecord) (lang t : String)
    (ht : t ≠ skillsTitle lang) :
    (skillsBlocks env r lang).countP (isHeadingWith t) = 0 := by
  unfold skillsBlocks
  split
  · rfl
  · rw [List.countP_cons]
    have h1 : isHeadingWith t (sectionHeading (skillsTitle lang)) = false := by
      rw [isHeadingWith_sectionHeading]
      exact beq_eq_false_iff_ne.mpr (Ne.symm ht)
    have h2 : ((group_skills env (filteredSkills r) lang).map (fun cs =>
        Block.para [ DocRun.txt ("• " ++ cs.1 ++ " : ") 11 true false CLR_BLACK
                   , DocRun.txt cs.2 11 false false CLR_BLACK ])).countP
          (isHeadingWith t) = 0 := by
      rw [List.countP_eq_zero]
      intro b hb
      rcases List.mem_map.mp hb with ⟨cs, _, rfl⟩
      simp [isHeadingWith]
    rw [h1, h2]
    simp

theorem countP_skillsBlocks_heading_self (env : RenderEnv) (r : CVRecord) (lang : String)
    (h : filteredSkills r ≠ []) :
    (skillsBlocks env r lang).countP (isHeadingWith (skillsTitle lang)) = 1 := by
  unfold skillsBlocks
  rw [if_neg h, List.countP_cons]
  have h2 : ((group_skills env (filteredSkills r) lang).map (fun cs =>
      Block.para [ DocRun.txt ("• " ++ cs.1 ++ " : ") 11 true false CLR_BLACK
                 , DocRun.txt cs.2 11 false false CLR_BLACK ])).countP
        (isHeadingWith (skillsTitle lang)) = 0 := by
    rw [List.countP_eq_zero]
    intro b hb
    rcases List.mem_map.mp hb with ⟨cs, _, rfl⟩
    simp [isHeadingWith]
  rw [h2, isHeadingWith_sectionHeading]
  simp

theorem countP_skillsBlocks_table (env : RenderEnv) (r : CVRecord) (lang : String) :
    (skillsBlocks env r lang).countP isTable = 0 := by
  unfold skillsBlocks
  split
  · rfl
  · rw [List.countP_cons]
    have h2 : ((group_skills env (filteredSkills r) lang).map (fun cs =>
        Block.para [ DocRun.txt ("• " ++ cs.1 ++ " : ") 11 true false CLR_BLACK
                   , DocRun.txt cs.2 11 false false CLR_BLACK ])).countP isTable = 0 := by
      rw [List.countP_eq_zero]
      intro b hb
      rcases List.mem_map.mp hb with ⟨cs, _, rfl⟩
      simp [isTable]
    rw [h2]
    simp [isTable, sectionHeading]

theorem countP_skillsBlocks_summary (env : RenderEnv) (r : CVRecord) (lang s : String) :
    (skillsBlocks env r lang).countP (fun b => decide (b = summaryBlockOf s)) = 0 := by
  unfold skillsBlocks
  split
  · rfl
  · rw [List.countP_cons]
    have h2 : ((group_skills env (filteredSkills r) lang).map (fun cs =>
        Block.para [ DocRun.txt ("• " ++ cs.1 ++ " : ") 11 true false CLR_BLACK
                   , DocRun.txt cs.2 11 false false CLR_BLACK ])).countP
          (fun b => decide (b = summaryBlockOf s)) = 0 := by
      rw [List.countP_eq_zero]
      intro b hb
      rcases List.mem_map.mp hb with ⟨cs, _, rfl⟩
      simp [summaryBlockOf]
    rw [h2]
    simp [sectionHeading, summaryBlockOf]

theorem countP_expBlocks_heading_ne (r : CVRecord) (lang t : String)
    (ht : t ≠ expTitle lang) :
    (expBlocks r lang).countP (isHeadingWith t) = 0 := by
  unfold expBlocks
  split
  · rfl
  · have h1 : isHeadingWith t (sectionHeading (expTitle lang)) = false := by
      rw [isHeadingWith_sectionHeading]
      exact beq_eq_false_iff_ne.mpr (Ne.symm ht)
    simp [List.countP_cons, h1, isHeadingWith_table]

theorem countP_expBlocks_heading_self (r : CVRecord) (lang : String)
    (h : filteredExp r ≠ []) :
    (expBlocks r lang).countP (isHeadingWith (expTitle lang)) = 1 := by
  unfold expBlocks
  rw [if_neg h]
  simp [List.countP_cons, isHeadingWith_sectionHeading, isHeadingWith_table]

theorem countP_expBlocks_table (r : CVRecord) (lang : String) :
    (expBlocks r lang).countP isTable = if filteredExp r = [] then 0 else 1 := by
  unfold expBlocks
  split
  · rfl
  · simp [List.countP_cons, isTable_sectionHeading, isTable_table]

theorem countP_expBlocks_summary (r : CVRecord) (lang s : String) :
    (expBlocks r lang).countP (fun b => decide (b = summaryBlockOf s)) = 0 := by
  unfold expBlocks
  split
  · rfl
  · simp [List.countP_cons, summaryBlockOf, sectionHeading]

theorem countP_eduBlocks_heading_ne (r : CVRecord) (lang t : String)
    (ht : t ≠ eduTitle lang) :
    (eduBlocks r lang).countP (isHeadingWith t) = 0 := by
  unfold eduBlocks
  split
  · rfl
  · have h1 : isHeadingWith t (sectionHeading (eduTitle lang)) = false := by
      rw [isHeadingWith_sectionHeading]
      exact beq_eq_false_iff_ne.mpr (Ne.symm ht)
    simp [List.countP_cons, h1, isHeadingWith_table]

theorem countP_eduBlocks_table (r : CVRecord) (lang : String) :
    (eduBlocks r lang).countP isTable = if filteredEdu r = [] then 0 else 1 := by
  unfold eduBlocks
  split
  · rfl
  · simp [List.countP_cons, isTable_sectionHeading, isTable_table]

theorem countP_eduBlocks_summary (r : CVRecord) (lang s : String) :
    (eduBlocks r lang).countP (fun b => decide (b = summaryBlockOf s)) = 0 := by
  unfold eduBlocks
  split
  · rfl
  · simp [List.countP_cons, summaryBlockOf, sectionHeading]

theorem is_real_summary_eq (s : String) :
    _is_real_summary s = decide (40 ≤ (pyStrip s).length) := by
  unfold _is_real_summary
  split
  · rename_i hcond
    rcases hcond with h | h
    · subst h
      rfl
    · rw [h]
      rfl
  · rfl

end SmartCV

namespace SmartCV

/-- C3: the summary block — the italic grey paragraph carrying exactly the
record's summary text — appears in the composed document exactly when the
trimmed summary has at least 40 characters, and never otherwise; in
particular a 39-character summary is omitted and a 40-character one is
rendered. -/
theorem summary_threshold (env : RenderEnv) (r : CVRecord) (lang : String) :
    (build_cv_document env r lang).countP
        (fun b => decide (b = summaryBlockOf r.personal_info.summary))
      = if 40 ≤ (pyStrip r.personal_info.summary).length then 1 else 0 := by
  unfold build_cv_document
  simp only [List.countP_cons, List.countP_append]
  rw [countP_summaryBlocks_summary, countP_skillsBlocks_summary, countP_expBlocks_summary,
      countP_eduBlocks_summary, countP_header_summary, is_real_summary_eq]
  by_cases h40 : 40 ≤ (pyStrip r.personal_info.summary).length
  · simp [h40]
  · simp [h40]

/-- C1: the experience section exists in the composed document exactly when
the filtered experience list is non-empty; when it does, the document
contains the experience heading immediately followed by a two-column table
whose rows are precisely the filtered entries mapped through `expRow`
(one row per entry, insertion order, left cell period-above-company, right
cell bold role then one bullet per non-blank detail), the heading occurs
exactly once, and when the filtered list is empty neither the heading nor
any extra table is emitted. -/
theorem experience_section_rule (env : RenderEnv) (r : CVRecord) (lang : String) :
    (filteredExp r ≠ [] →
        (∃ pre post, build_cv_document env r lang
            = pre ++ [sectionHeading (expTitle lang),
                      Block.table ((filteredExp r).map expRow)] ++ post)
        ∧ ((filteredExp r).map expRow).length = (filteredExp r).length
        ∧ (build_cv_document env r lang).countP (isHeadingWith (expTitle lang)) = 1)
    ∧ (filteredExp r = [] →
        (build_cv_document env r lang).countP (isHeadingWith (expTitle lang)) = 0
        ∧ (build_cv_document env r lang).countP isTable
            = 1 + (if filteredEdu r = [] then 0 else 1)) := by
  constructor
  · intro h
    refine ⟨⟨headerBlock env r.personal_info
        :: (summaryBlocks r.personal_info ++ skillsBlocks env r lang),
        eduBlocks r lang, ?_⟩, List.length_map _ _, ?_⟩
    · unfold build_cv_document expBlocks
      rw [if_neg h]
      simp [List.append_assoc]
    · unfold build_cv_document
      simp only [List.countP_cons, List.countP_append]
      rw [countP_summaryBlocks_heading,
          countP_skillsBlocks_heading_ne env r lang _ (expTitle_ne_skillsTitle lang),
          countP_expBlocks_heading_self r lang h,
          countP_eduBlocks_heading_ne r lang _ (expTitle_ne_eduTitle lang),
          isHeadingWith_headerBlock]
      simp
  · intro h
    constructor
    · unfold build_cv_document
      simp only [List.countP_cons, List.countP_append]
      rw [countP_summaryBlocks_heading,
          countP_skillsBlocks_heading_ne env r lang _ (expTitle_ne_skillsTitle lang),
          expBlocks_of_empty r lang h,
          countP_eduBlocks_heading_ne r lang _ (expTitle_ne_eduTitle lang),
          isHeadingWith_headerBlock]
      simp
    · unfold build_cv_document
      simp only [List.countP_cons, List.countP_append]
      rw [countP_summaryBlocks_table, countP_skillsBlocks_table,
          expBlocks_of_empty r lang h, countP_eduBlocks_table, isTable_headerBlock]
      by_cases he : filteredEdu r = [] <;> simp [he, Nat.add_comm]

/-- C1 witness: a one-entry record renders the section with one heading and
the single-row table; an entry-free record renders no experience heading
and only the header table. -/
theorem experience_section_rule_witness :
    (filteredExp expRecord ≠ []
      ∧ ((∃ pre post, build_cv_document env0 expRecord "fr"
            = pre ++ [sectionHeading (expTitle "fr"),
                      Block.table ((filteredExp expRecord).map expRow)] ++ post)
        ∧ ((filteredExp expRecord).map expRow).length = (filteredExp expRecord).length
        ∧ (build_cv_document env0 expRecord "fr").countP
            (isHeadingWith (expTitle "fr")) = 1))
    ∧ (filteredExp emptyNameRecord = []
      ∧ ((build_cv_document env0 emptyNameRecord "en").countP
            (isHeadingWith (expTitle "en")) = 0
        ∧ (build_cv_document env0 emptyNameRecord "en").countP isTable
            = 1 + (if filteredEdu emptyNameRecord = [] then 0 else 1))) :=
  ⟨⟨by decide, (experience_section_rule env0 expRecord "fr").1 (by decide)⟩,
   ⟨rfl, (experience_section_rule env0 emptyNameRecord "en").2 rfl⟩⟩

/-- C2: the skills-section heading appears exactly once when the filtered
skill list is non-empty and not at all (in either language's text) when it
is empty, and the heading text is the French constant for `fr` and the
English constant for `en`. -/
theorem skills_section_rule (env : RenderEnv) (r : CVRecord) (lang : String) :
    (filteredSkills r = [] →
        (build_cv_document env r lang).countP
            (isHeadingWith "COMPETENCES PROFESSIONNELLES") = 0
        ∧ (build_cv_document env r lang).countP
            (isHeadingWith "PROFESSIONAL SKILLS") = 0)
    ∧ (filteredSkills r ≠ [] →
        (build_cv_document env r lang).countP (isHeadingWith (skillsTitle lang)) = 1)
    ∧ skillsTitle "fr" = "COMPETENCES PROFESSIONNELLES"
    ∧ skillsTitle "en" = "PROFESSIONAL SKILLS" := by
  refine ⟨?_, ?_, by decide, by decide⟩
  · intro h
    constructor
    · unfold build_cv_document
      simp only [List.countP_cons, List.countP_append]
      rw [countP_summaryBlocks_heading, skillsBlocks_of_empty env r lang h,
          countP_expBlocks_heading_ne r lang _ (lit_fr_ne_expTitle lang),
          countP_eduBlocks_heading_ne r lang _ (lit_fr_ne_eduTitle lang),
          isHeadingWith_headerBlock]
      simp
    · unfold build_cv_document
      simp only [List.countP_cons, List.countP_append]
      rw [countP_summaryBlocks_heading, skillsBlocks_of_empty env r lang h,
          countP_expBlocks_heading_ne r lang _ (lit_en_ne_expTitle lang),
          countP_eduBlocks_heading_ne r lang _ (lit_en_ne_eduTitle lang),
          isHeadingWith_headerBlock]
      simp
  · intro h
    unfold build_cv_document
    simp only [List.countP_cons, List.countP_append]
    rw [countP_summaryBlocks_heading,
        countP_skillsBlocks_heading_self env r lang h,
        countP_expBlocks_heading_ne r lang _ (skillsTitle_ne_expTitle lang),
        countP_eduBlocks_heading_ne r lang _ (skillsTitle_ne_eduTitle lang),
        isHeadingWith_headerBlock]
    simp

/-- C2 witness: one skill gives exactly one skills heading; no skills give
no skills heading in either language's text. -/
theorem skills_section_rule_witness :
    ((build_cv_document env0 skillRecord "fr").countP
        (isHeadingWith (skillsTitle "fr")) = 1)
    ∧ ((build_cv_document env0 emptyNameRecord "fr").countP
          (isHeadingWith "COMPETENCES PROFESSIONNELLES") = 0
      ∧ (build_cv_document env0 emptyNameRecord "fr").countP
          (isHeadingWith "PROFESSIONAL SKILLS") = 0) :=
  ⟨(skills_section_rule env0 skillRecord "fr").2.1 (by decide),
   (skills_section_rule env0 emptyNameRecord "fr").1 rfl⟩

/-- C8: image insertion is best-effort — changing which paths exist or
whether picture loading succeeds never changes anything in the composed
document outside the logo cell (the composer is a total function, so no
error escapes), and a missing photo produces exactly the same document with
the logo cell left as its single empty paragraph. -/
theorem asset_tolerance (env : RenderEnv) (r : CVRecord) (lang : String)
    (pe po : String → Bool) :
    stripLogo (build_cv_document { env with pathExists := pe, pictureOk := po } r lang)
      = stripLogo (build_cv_document env r lang)
    ∧ build_cv_document { env with pathExists := fun _ => false } r lang
        = stripLogo (build_cv_document env r lang) := by
  refine ⟨rfl, ?_⟩
  have hc : ¬(r.personal_info.photo_path ≠ ""
      ∧ RenderEnv.pathExists { env with pathExists := fun _ => false }
          r.personal_info.photo_path = true) :=
    fun hcc => Bool.noConfusion hcc.2
  unfold build_cv_document stripLogo headerBlock
  simp only [if_neg hc]
  rfl

/-! Lemmas for C10: the composer's internal filters absorb the caller's
pre-filtering pass. -/

theorem gdf_personal_info (r : CVRecord) :
    (generate_docx_filter r).personal_info = r.personal_info := rfl

theorem keepExp_filterDetails (e : ExperienceEntry) :
    keepExp (filterDetailsExp e) = keepExp e := rfl

theorem keepEdu_filterDetails (e : EducationEntry) :
    keepEdu (filterDetailsEdu e) = keepEdu e := rfl

theorem expRow_filterDetails (e : ExperienceEntry) :
    expRow (filterDetailsExp e) = expRow e := by
  unfold expRow filterDetailsExp
  simp [filter_idem]

theorem eduRow_filterDetails (e : EducationEntry) :
    eduRow (filterDetailsEdu e) = eduRow e := by
  unfold eduRow filterDetailsEdu
  simp [filter_idem]

theorem filteredSkills_gdf (r : CVRecord) :
    filteredSkills (generate_docx_filter r) = filteredSkills r := by
  unfold filteredSkills generate_docx_filter
  exact filter_idem keepSkill r.skills

theorem filteredExp_gdf (r : CVRecord) :
    filteredExp (generate_docx_filter r) = (filteredExp r).map filterDetailsExp := by
  unfold filteredExp generate_docx_filter
  refine List.filter_eq_self.mpr ?_
  intro a ha
  rcases List.mem_map.mp ha with ⟨e, he, rfl⟩
  rw [keepExp_filterDetails]
  exact List.of_mem_filter he

theorem filteredEdu_gdf (r : CVRecord) :
    filteredEdu (generate_docx_filter r) = (filteredEdu r).map filterDetailsEdu := by
  unfold filteredEdu generate_docx_filter
  refine List.filter_eq_self.mpr ?_
  intro a ha
  rcases List.mem_map.mp ha with ⟨e, he, rfl⟩
  rw [keepEdu_filterDetails]
  exact List.of_mem_filter he

theorem skillsBlocks_gdf (env : RenderEnv) (r : CVRecord) (lang : String) :
    skillsBlocks env (generate_docx_filter r) lang = skillsBlocks env r lang := by
  unfold skillsBlocks
  rw [filteredSkills_gdf]

theorem expBlocks_gdf (r : CVRecord) (lang : String) :
    expBlocks (generate_docx_filter r) lang = expBlocks r lang := by
  unfold expBlocks
  rw [filteredExp_gdf]
  by_cases h : filteredExp r = []
  · simp [h]
  · rw [if_neg (by simp [List.map_eq_nil_iff, h]), if_neg h, List.map_map,
        show expRow ∘ filterDetailsExp = expRow from funext expRow_filterDetails]

theorem eduBlocks_gdf (r : CVRecord) (lang : String) :
    eduBlocks (generate_docx_filter r) lang = eduBlocks r lang := by
  unfold eduBlocks
  rw [filteredEdu_gdf]
  by_cases h : filteredEdu r = []
  · simp [h]
  · rw [if_neg (by simp [List.map_eq_nil_iff, h]), if_neg h, List.map_map,
        show eduRow ∘ filterDetailsEdu = eduRow from funext eduRow_filterDetails]

/-- C10: the composer re-applies exactly the filtering predicates of the
caller's pre-render pass, so composing the pre-filtered record yields the
same document as composing the original record. -/
theorem prefilter_refinement (env : RenderEnv) (r : CVRecord) (lang : String) :
    build_cv_document env (generate_docx_filter r) lang = build_cv_document env r lang := by
  unfold build_cv_document
  rw [gdf_personal_info, skillsBlocks_gdf, expBlocks_gdf, eduBlocks_gdf]

end SmartCV
